import Mathlib

/-!
Verification of the halkit booking-data pipeline (`halkit/csv_handler.py`).

A pandas DataFrame of bookings is modelled as a list of rows; only the two
columns the pipeline inspects are kept: `anfang` (reservation start, an
integer number of minutes on an absolute time axis) and `fahrtneu_id` (the
booking identifier).  Pandas `max`/`min` of a possibly-empty column is
modelled as `Option Int` (`none` plays the role of `NaN`/`NaT`, which
compares `False` against everything).  Python exceptions become an
`Except VError` result; each error constructor carries exactly the data
interpolated into the corresponding Python error message.
-/

namespace Halkit

structure Row where
  anfang : Int
  fahrtneu_id : Int
  deriving Repr, DecidableEq

abbrev DF := List Row

/-- `df["anfang"].max()`: `none` for an empty frame (pandas `NaN`). -/
def maxAnfang : DF → Option Int
  | [] => none
  | r :: rs => some ((rs.map Row.anfang).foldl max r.anfang)

/-- `df["anfang"].min()`: `none` for an empty frame (pandas `NaN`). -/
def minAnfang : DF → Option Int
  | [] => none
  | r :: rs => some ((rs.map Row.anfang).foldl min r.anfang)

/-- Scalar comparison `x >= y` where either side may be `NaN`: pandas
comparisons against `NaN` are `False`. -/
def optGe : Option Int → Option Int → Bool
  | some a, some b => a ≥ b
  | _, _ => false

/-- Elementwise `anfang >= scalar` used in the boolean mask
`df["anfang"] >= first_date_next_df`. -/
def geScalar (a : Int) : Option Int → Bool
  | some b => a ≥ b
  | none => false

/-- Elementwise `anfang <= scalar` used in the boolean mask
`df["anfang"] <= last_date_current_df`. -/
def leScalar (a : Int) : Option Int → Bool
  | some b => a ≤ b
  | none => false

/-- Elementwise `anfang > scalar` used in the boolean mask
`df["anfang"] > last_date_master_df`. -/
def gtScalar (a : Int) : Option Int → Bool
  | some b => a > b
  | none => false

/-- Errors the pipeline can raise.  Each constructor carries the data the
corresponding Python exception message interpolates. -/
inductive VError where
  | overlapLengthMismatch (i : Nat) (j : Nat)
  | overlapIdentityMismatch (i : Nat) (j : Nat)
  | gapTooLarge (file1 : String) (file2 : String) (threshold_hours : Nat)
  | invalidInput
  | indexError
  deriving Repr, DecidableEq

/-- Data carried by the `logging.warning` call of the gap check. -/
structure Warning where
  file1 : String
  file2 : String
  lastDate : Int
  firstDate : Int
  deriving Repr, DecidableEq

/-- One minute is the unit of the time axis. -/
def timedeltaHours (h : Nat) : Int := (h : Int) * 60

/-- The default value of the `threshold_hours` parameter of
`assert_time_difference_in_bookings`. -/
def default_threshold_hours : Nat := 6

/-- `set(df.reset_index()["fahrtneu_id"])`. -/
def idSet (df : DF) : Finset Int := (df.map Row.fahrtneu_id).toFinset

/-- Body of the loop of `verify_overlapping_bookings` for boundary `i`
(between `df_list_sorted[i] = a` and `df_list_sorted[i+1] = b`). -/
def checkOverlapBoundary (i : Nat) (a b : DF) : Except VError Unit :=
  let last_date_current_df := maxAnfang a
  let first_date_next_df := minAnfang b
  if optGe last_date_current_df first_date_next_df then
    let overlap_current_df := a.filter (fun r => geScalar r.anfang first_date_next_df)
    let overlap_next_df := b.filter (fun r => leScalar r.anfang last_date_current_df)
    if overlap_current_df.length = overlap_next_df.length then
      if idSet overlap_current_df = idSet overlap_next_df then
        .ok ()
      else
        .error (.overlapIdentityMismatch i (i + 1))
    else
      .error (.overlapLengthMismatch i (i + 1))
  else
    .ok ()

def verifyAux : Nat → List DF → Except VError Unit
  | _, [] => .ok ()
  | _, [_] => .ok ()
  | i, a :: b :: rest =>
      match checkOverlapBoundary i a b with
      | .error e => .error e
      | .ok _ => verifyAux (i + 1) (b :: rest)

/-- `verify_overlapping_bookings`: checks every adjacent boundary in index
order, raising at the first violation. -/
def verify_overlapping_bookings (df_list_sorted : List DF) : Except VError Unit :=
  verifyAux 0 df_list_sorted

/-- Body of the loop of `assert_time_difference_in_bookings` for one
boundary, with the two file names indexed there. -/
def checkGapBoundary (a b : DF) (file1 file2 : String) (threshold_hours : Nat) :
    Except VError (List Warning) :=
  match maxAnfang a, minAnfang b with
  | some last_date, some first_date =>
      if last_date ≥ first_date then
        .ok []
      else if first_date - last_date ≤ timedeltaHours threshold_hours then
        .ok [⟨file1, file2, last_date, first_date⟩]
      else
        .error (.gapTooLarge file1 file2 threshold_hours)
  | _, _ =>
      -- a `NaT` endpoint: `not (NaT >= x)` is `True`, the difference is
      -- `NaT`, and `NaT <= timedelta(...)` is `False`, so the check raises
      .error (.gapTooLarge file1 file2 threshold_hours)

def assertAux : List DF → List String → Nat → Except VError (List Warning)
  | a :: b :: rest, f1 :: f2 :: fs, th =>
      match checkGapBoundary a b f1 f2 th with
      | .error e => .error e
      | .ok w =>
          match assertAux (b :: rest) (f2 :: fs) th with
          | .error e => .error e
          | .ok ws => .ok (w ++ ws)
  | _, _, _ => .ok []

/-- `assert_time_difference_in_bookings`: the dataframes and the file-name
list are traversed in lockstep, as the Python loop indexes both with `i`
(the caller passes lists of equal length). -/
def assert_time_difference_in_bookings (df_list_sorted : List DF)
    (csv_files_sorted : List String) (threshold_hours : Nat) :
    Except VError (List Warning) :=
  assertAux df_list_sorted csv_files_sorted threshold_hours

/-- One iteration of the merge loop: recompute
`last_date_master_df = master_df["anfang"].max()` and concatenate the rows
of the next frame whose `anfang` is strictly greater. -/
def mergeStep (master_df : DF) (s : DF) : DF :=
  master_df ++ s.filter (fun r => gtScalar r.anfang (maxAnfang master_df))

/-- The indexed loop `for i in range(1, len(df_list_sorted))`. -/
def mergeLoop (dfs : List DF) (i : Nat) (master_df : DF) : DF :=
  if h : i < dfs.length then
    mergeLoop dfs (i + 1) (mergeStep master_df dfs[i])
  else
    master_df
termination_by dfs.length - i

/-- A Python value, as far as the `isinstance` checks of
`merge_nonoverlapping_dfs` can distinguish. -/
inductive PyVal where
  | vlist (xs : List PyVal)
  | vdf (d : DF)
  | vstr (s : String)
  | vint (n : Int)

def isDataFrame : PyVal → Bool
  | .vdf _ => true
  | _ => false

def asDF : PyVal → DF
  | .vdf d => d
  | _ => []

/-- Merge a (typed) list of frames: `master_df = df_list_sorted[0]` raises
`IndexError` on an empty list, then the loop runs from index 1. -/
def merge_nonoverlapping_list (df_list_sorted : List DF) : Except VError DF :=
  match df_list_sorted with
  | [] => .error .indexError
  | d :: rest => .ok (mergeLoop (d :: rest) 1 d)

/-- `merge_nonoverlapping_dfs`: `ValueError` unless the argument is a list
whose elements are all DataFrames, then the merge loop. -/
def merge_nonoverlapping_dfs (v : PyVal) : Except VError DF :=
  match v with
  | .vlist xs =>
      if xs.all isDataFrame then
        merge_nonoverlapping_list (xs.map asDF)
      else
        .error .invalidInput
  | _ => .error .invalidInput

/-- Python's `<=` on strings: lexicographic comparison of the character
sequences. -/
def lexLe : List Char → List Char → Bool
  | [], _ => true
  | _ :: _, [] => false
  | a :: as, b :: bs => if a < b then true else if b < a then false else lexLe as bs

def pyStrLe (a b : String) : Bool := lexLe a.data b.data

/-- `load_and_sort_fahrten_data`, with `pd.read_csv` abstracted as a pure
map from file name to frame and Python's `sorted` (a stable ascending
sort) as insertion sort by `pyStrLe`.  The frames are loaded in sorted
file order, but the function returns the original `csv_files` list (its
final `return df_list_sorted, csv_files`). -/
def load_and_sort_fahrten_data (read_csv : String → DF) (csv_files : List String) :
    List DF × List String :=
  let csv_files_sorted := csv_files.insertionSort (fun a b => pyStrLe a b)
  let df_list_sorted := csv_files_sorted.map read_csv
  (df_list_sorted, csv_files)

/-- `combine_and_verify_booking_data`: load and sort, verify overlaps,
check gaps, then merge. -/
def combine_and_verify_booking_data (read_csv : String → DF) (csv_files : List String) :
    Except VError DF :=
  let p := load_and_sort_fahrten_data read_csv csv_files
  match verify_overlapping_bookings p.1 with
  | .error e => .error e
  | .ok _ =>
      match assert_time_difference_in_bookings p.1 p.2 default_threshold_hours with
      | .error e => .error e
      | .ok _ => merge_nonoverlapping_dfs (.vlist (p.1.map .vdf))

/-! ### Helper lemmas -/

theorem mergeLoop_eq_foldl (dfs : List DF) (i : Nat) (master : DF) :
    mergeLoop dfs i master = (dfs.drop i).foldl mergeStep master := by
  induction i, master using mergeLoop.induct dfs with
  | case1 i master h ih =>
      rw [mergeLoop, dif_pos h, ih, List.drop_eq_getElem_cons h, List.foldl_cons]
  | case2 i master h =>
      rw [mergeLoop, dif_neg h, List.drop_eq_nil_of_le (by omega), List.foldl_nil]

theorem merge_list_cons (d : DF) (rest : List DF) :
    merge_nonoverlapping_list (d :: rest) = .ok (rest.foldl mergeStep d) := by
  rw [merge_nonoverlapping_list, mergeLoop_eq_foldl, List.drop_one, List.tail_cons]

theorem checkOverlapBoundary_of_overlap (i : Nat) (a b : DF)
    (hcond : optGe (maxAnfang a) (minAnfang b) = true) :
    checkOverlapBoundary i a b =
      if (a.filter fun r => geScalar r.anfang (minAnfang b)).length =
          (b.filter fun r => leScalar r.anfang (maxAnfang a)).length then
        if idSet (a.filter fun r => geScalar r.anfang (minAnfang b)) =
            idSet (b.filter fun r => leScalar r.anfang (maxAnfang a)) then
          .ok ()
        else
          .error (.overlapIdentityMismatch i (i + 1))
      else
        .error (.overlapLengthMismatch i (i + 1)) := by
  rw [checkOverlapBoundary]
  simp only [hcond, if_true]

theorem verify_pair (a b : DF) :
    verify_overlapping_bookings [a, b] = checkOverlapBoundary 0 a b := by
  rw [verify_overlapping_bookings, verifyAux]
  cases h : checkOverlapBoundary 0 a b with
  | error e => rfl
  | ok u => cases u; rw [verifyAux]

/-! ### Claims -/

/-- Claim C9: merging a single-element list returns that record set's rows
unchanged. -/
theorem merger_singleton_identity (d : DF) :
    merge_nonoverlapping_dfs (.vlist [.vdf d]) = .ok d := by
  rw [merge_nonoverlapping_dfs]
  simp only [List.all_cons, List.all_nil, isDataFrame, Bool.and_true, if_true,
    List.map_cons, List.map_nil, asDF]
  rw [merge_list_cons, List.foldl_nil]

/-- Claim C5: a boundary between adjacent nonempty record sets is routed to
the overlap check exactly when `max(A.anfang) ≥ min(B.anfang)` and to the
gap check otherwise; an overlapping boundary makes the gap check a no-op,
a gapped boundary makes the overlap check a no-op, and exact equality of
the two endpoints is routed to the overlap check. -/
theorem boundary_classification (i : Nat) (a b : DF) (f1 f2 : String)
    (th : Nat) (l f : Int) (hl : maxAnfang a = some l) (hf : minAnfang b = some f) :
    (optGe (maxAnfang a) (minAnfang b) = decide (l ≥ f)) ∧
    (l ≥ f → checkGapBoundary a b f1 f2 th = .ok []) ∧
    (¬ l ≥ f → checkOverlapBoundary i a b = .ok ()) ∧
    (l = f → optGe (maxAnfang a) (minAnfang b) = true) := by
  refine ⟨?_, ?_, ?_, ?_⟩
  · rw [hl, hf]; rfl
  · intro h
    simp only [checkGapBoundary, hl, hf, if_pos h]
  · intro h
    simp [checkOverlapBoundary, hl, hf, optGe, h]
  · intro h
    rw [hl, hf, h]
    simp [optGe]

/-- Witness for C5: an equal-instant boundary is overlapping and skips the
gap check; a gapped boundary skips the overlap check. -/
theorem boundary_classification_witness :
    optGe (maxAnfang [Row.mk 5 1]) (minAnfang [Row.mk 5 2]) = true ∧
    checkGapBoundary [Row.mk 5 1] [Row.mk 5 2] "f.csv" "g.csv" 6 = .ok [] ∧
    checkOverlapBoundary 0 [Row.mk 0 1] [Row.mk 5 2] = .ok () := by
  refine ⟨?_, ?_, ?_⟩
  · exact (boundary_classification 0 [Row.mk 5 1] [Row.mk 5 2] "f.csv" "g.csv"
      6 5 5 rfl rfl).2.2.2 rfl
  · exact (boundary_classification 0 [Row.mk 5 1] [Row.mk 5 2] "f.csv" "g.csv"
      6 5 5 rfl rfl).2.1 (le_refl 5)
  · exact (boundary_classification 0 [Row.mk 0 1] [Row.mk 5 2] "f.csv" "g.csv"
      6 0 5 rfl rfl).2.2.1 (by decide)

/-- Claim C4: for a gapped boundary the check raises `GapTooLarge` exactly
when the gap strictly exceeds the threshold; a gap at or under the
threshold passes, returning the warning that carries both file names and
both boundary instants, and the surrounding traversal then succeeds with
that warning; the default threshold is 6 hours. -/
theorem gap_validation (a b : DF) (f1 f2 : String) (th : Nat) (l f : Int)
    (hl : maxAnfang a = some l) (hf : minAnfang b = some f) (hgap : l < f) :
    (checkGapBoundary a b f1 f2 th = .error (.gapTooLarge f1 f2 th) ↔
      timedeltaHours th < f - l) ∧
    (f - l ≤ timedeltaHours th →
      checkGapBoundary a b f1 f2 th = .ok [⟨f1, f2, l, f⟩] ∧
      assert_time_difference_in_bookings [a, b] [f1, f2] th = .ok [⟨f1, f2, l, f⟩]) ∧
    default_threshold_hours = 6 := by
  have hng : ¬ l ≥ f := not_le.mpr hgap
  refine ⟨?_, ?_, rfl⟩
  · simp only [checkGapBoundary, hl, hf, if_neg hng]
    by_cases hle : f - l ≤ timedeltaHours th
    · simp [if_pos hle, not_lt.mpr hle]
      omega
    · simp [if_neg hle, not_le.mp hle]
      omega
  · intro hle
    have hcheck : checkGapBoundary a b f1 f2 th = .ok [⟨f1, f2, l, f⟩] := by
      simp only [checkGapBoundary, hl, hf, if_neg hng, if_pos hle]
    refine ⟨hcheck, ?_⟩
    rw [assert_time_difference_in_bookings, assertAux, hcheck]
    have hsingle : assertAux [b] [f2] th = .ok [] := rfl
    rw [hsingle]
    simp

/-- Witness for C4 at the spec's instances: with the default 6-hour
threshold a 7-hour gap raises, a 5-hour gap warns, and a gap of exactly
6 hours warns. -/
theorem gap_validation_witness :
    checkGapBoundary [Row.mk 0 1] [Row.mk 420 2] "f.csv" "g.csv" default_threshold_hours =
      .error (.gapTooLarge "f.csv" "g.csv" default_threshold_hours) ∧
    checkGapBoundary [Row.mk 0 1] [Row.mk 300 2] "f.csv" "g.csv" 6 =
      .ok [⟨"f.csv", "g.csv", 0, 300⟩] ∧
    assert_time_difference_in_bookings [[Row.mk 0 1], [Row.mk 360 2]] ["f.csv", "g.csv"] 6 =
      .ok [⟨"f.csv", "g.csv", 0, 360⟩] := by
  refine ⟨?_, ?_, ?_⟩
  · exact (gap_validation [Row.mk 0 1] [Row.mk 420 2] "f.csv" "g.csv"
      default_threshold_hours 0 420 rfl rfl (by decide)).1.mpr (by decide)
  · exact ((gap_validation [Row.mk 0 1] [Row.mk 300 2] "f.csv" "g.csv"
      6 0 300 rfl rfl (by decide)).2.1 (by decide)).1
  · exact ((gap_validation [Row.mk 0 1] [Row.mk 360 2] "f.csv" "g.csv"
      6 0 360 rfl rfl (by decide)).2.1 (by decide)).2

/-- Claim C1: for an overlapping boundary the check raises
`OverlapLengthMismatch` exactly when the two overlap windows have different
row counts; with equal counts it raises `OverlapIdentityMismatch` exactly
when the windows' `fahrtneu_id` sets differ; with equal counts and equal
id sets it passes, whatever the row order (the comparison is between sets);
and on a two-set input the whole verification is this single boundary
check. -/
theorem overlap_validation (i : Nat) (a b : DF) (l f : Int)
    (hl : maxAnfang a = some l) (hf : minAnfang b = some f) (hov : f ≤ l) :
    ((checkOverlapBoundary i a b = .error (.overlapLengthMismatch i (i + 1))) ↔
      (a.filter fun r => geScalar r.anfang (minAnfang b)).length ≠
        (b.filter fun r => leScalar r.anfang (maxAnfang a)).length) ∧
    ((a.filter fun r => geScalar r.anfang (minAnfang b)).length =
        (b.filter fun r => leScalar r.anfang (maxAnfang a)).length →
      ((checkOverlapBoundary i a b = .error (.overlapIdentityMismatch i (i + 1))) ↔
        idSet (a.filter fun r => geScalar r.anfang (minAnfang b)) ≠
          idSet (b.filter fun r => leScalar r.anfang (maxAnfang a)))) ∧
    ((a.filter fun r => geScalar r.anfang (minAnfang b)).length =
        (b.filter fun r => leScalar r.anfang (maxAnfang a)).length →
      idSet (a.filter fun r => geScalar r.anfang (minAnfang b)) =
        idSet (b.filter fun r => leScalar r.anfang (maxAnfang a)) →
      checkOverlapBoundary i a b = .ok ()) ∧
    verify_overlapping_bookings [a, b] = checkOverlapBoundary 0 a b := by
  have hcond : optGe (maxAnfang a) (minAnfang b) = true := by
    rw [hl, hf]; exact decide_eq_true hov
  rw [checkOverlapBoundary_of_overlap i a b hcond]
  by_cases hlen : (a.filter fun r => geScalar r.anfang (minAnfang b)).length =
      (b.filter fun r => leScalar r.anfang (maxAnfang a)).length
  · by_cases hid : idSet (a.filter fun r => geScalar r.anfang (minAnfang b)) =
        idSet (b.filter fun r => leScalar r.anfang (maxAnfang a))
    · simp [hlen, hid, verify_pair]
    · simp [hlen, hid, verify_pair]
  · simp [hlen, verify_pair]

/-- Witness for C1: an equal-instant boundary whose overlap windows agree
as sets although the later file lists its rows in a different order. -/
theorem overlap_validation_witness :
    checkOverlapBoundary 0 [Row.mk 0 1, Row.mk 600 2] [Row.mk 700 3, Row.mk 600 2] =
      .ok () ∧
    verify_overlapping_bookings
      [[Row.mk 0 1, Row.mk 600 2], [Row.mk 700 3, Row.mk 600 2]] = .ok () := by
  have h := overlap_validation 0 [Row.mk 0 1, Row.mk 600 2]
    [Row.mk 700 3, Row.mk 600 2] 600 600 rfl rfl (le_refl 600)
  refine ⟨h.2.2.1 (by decide) (by decide), ?_⟩
  rw [h.2.2.2]
  exact h.2.2.1 (by decide) (by decide)

/-- Counterexample to C7 as stated: the merger on the empty list raises an
index error (from `df_list_sorted[0]`), not the `ValueError` used for
invalid input. -/
theorem merger_empty_list_counterexample :
    merge_nonoverlapping_dfs (.vlist []) = .error .indexError ∧
    VError.indexError ≠ VError.invalidInput := ⟨rfl, by decide⟩

/-- Claim C7 amended: the merger raises `InvalidInput` when its argument is
not a list or is a list containing a non-DataFrame element; the empty list
instead raises an uncaught index error. -/
theorem merger_invalid_input (v : PyVal) :
    ((∀ xs, v ≠ .vlist xs) → merge_nonoverlapping_dfs v = .error .invalidInput) ∧
    (∀ xs x, v = .vlist xs → x ∈ xs → isDataFrame x = false →
      merge_nonoverlapping_dfs v = .error .invalidInput) ∧
    merge_nonoverlapping_dfs (.vlist []) = .error .indexError := by
  refine ⟨?_, ?_, rfl⟩
  · intro h
    cases v with
    | vlist xs => exact absurd rfl (h xs)
    | vdf d => rfl
    | vstr s => rfl
    | vint n => rfl
  · intro xs x hv hx hdf
    subst hv
    have hall : xs.all isDataFrame = false := by
      by_contra hne
      have htrue : xs.all isDataFrame = true := by
        cases hb : xs.all isDataFrame with
        | false => exact absurd hb hne
        | true => rfl
      have := (List.all_eq_true.mp htrue) x hx
      rw [hdf] at this
      exact Bool.false_ne_true this
    rw [merge_nonoverlapping_dfs]
    simp [hall]

/-- Witness for C7 (amended): a non-list argument and a list with a
non-DataFrame element both raise `InvalidInput`; the empty list raises the
index error. -/
theorem merger_invalid_input_witness :
    merge_nonoverlapping_dfs (.vstr "df_list") = .error .invalidInput ∧
    merge_nonoverlapping_dfs (.vlist [.vdf [], .vint 3]) = .error .invalidInput ∧
    merge_nonoverlapping_dfs (.vlist []) = .error .indexError := by
  refine ⟨?_, ?_, (merger_invalid_input (.vlist [])).2.2⟩
  · exact (merger_invalid_input (.vstr "df_list")).1 (fun xs h => PyVal.noConfusion h)
  · exact (merger_invalid_input (.vlist [.vdf [], .vint 3])).2.1
      [.vdf [], .vint 3] (.vint 3) rfl (by simp) rfl

def dfA : DF := [Row.mk 0 1, Row.mk 600 2]
def dfB : DF := [Row.mk 600 2, Row.mk 700 3]

/-- A `pd.read_csv` stub mapping two file names to the two frames above. -/
def readAB : String → DF := fun s => if s = "a.csv" then dfA else dfB

/-- Claim C3 (code bug): on the unsorted input `["b.csv", "a.csv"]` the
frames come back in sorted file order but the returned file list is the
original unsorted one, so position 0 pairs `"b.csv"` with the frame loaded
from `"a.csv"`, and the returned identifiers are not in sorted order. -/
theorem sequencer_returns_unsorted_files :
    load_and_sort_fahrten_data readAB ["b.csv", "a.csv"] =
      ([dfA, dfB], ["b.csv", "a.csv"]) ∧
    readAB "b.csv" = dfB ∧
    dfA ≠ dfB ∧
    (["b.csv", "a.csv"] : List String).insertionSort (fun a b => pyStrLe a b) =
      ["a.csv", "b.csv"] := by
  refine ⟨?_, rfl, by decide, ?_⟩ <;> decide

def dfLong : DF := [Row.mk 0 1, Row.mk 600 2, Row.mk 600 3]
def dfShort : DF := [Row.mk 600 4]

def readPairNamed1 : String → DF := fun s => if s = "a.csv" then dfLong else dfShort
def readPairNamed2 : String → DF := fun s => if s = "c.csv" then dfLong else dfShort

/-- Counterexample to C8 as stated: two pipeline runs over the same frames
but different file names produce the identical overlap error value, so the
overlap errors cannot be carrying the names of the offending files — they
carry only the positional indices 0 and 1. -/
theorem overlap_error_missing_names_counterexample :
    combine_and_verify_booking_data readPairNamed1 ["a.csv", "b.csv"] =
      .error (.overlapLengthMismatch 0 1) ∧
    combine_and_verify_booking_data readPairNamed2 ["c.csv", "d.csv"] =
      .error (.overlapLengthMismatch 0 1) := by
  constructor <;> rfl

/-- Claim C8 amended: a gap error always carries the two file names passed
for its boundary together with the threshold, while the overlap errors
carry only the positional indices of the two adjacent record sets. -/
theorem validation_error_payloads (i : Nat) (a b : DF) (f1 f2 : String)
    (th : Nat) (e : VError) :
    (checkGapBoundary a b f1 f2 th = .error e → e = .gapTooLarge f1 f2 th) ∧
    (checkOverlapBoundary i a b = .error e →
      e = .overlapLengthMismatch i (i + 1) ∨ e = .overlapIdentityMismatch i (i + 1)) := by
  constructor
  · intro h
    rw [checkGapBoundary] at h
    rcases hma : maxAnfang a with _ | l <;> rcases hmb : minAnfang b with _ | f <;>
        rw [hma, hmb] at h
    · exact (Except.error.inj h).symm
    · exact (Except.error.inj h).symm
    · exact (Except.error.inj h).symm
    · have h2 : (if l ≥ f then (Except.ok [] : Except VError (List Warning))
          else if f - l ≤ timedeltaHours th then
            .ok [⟨f1, f2, l, f⟩]
          else .error (.gapTooLarge f1 f2 th)) = .error e := h
      split_ifs at h2
      first
        | exact Except.noConfusion h2
        | exact (Except.error.inj h2).symm
  · intro h
    cases hcond : optGe (maxAnfang a) (minAnfang b) with
    | false =>
        rw [checkOverlapBoundary] at h
        simp only [hcond, Bool.false_eq_true, if_false] at h
        exact Except.noConfusion h
    | true =>
        rw [checkOverlapBoundary_of_overlap i a b hcond] at h
        split_ifs at h
        · exact Or.inr (Except.error.inj h).symm
        · exact Or.inl (Except.error.inj h).symm

/-- Witness for C8 (amended) at a too-large gap and a mismatched overlap. -/
theorem validation_error_payloads_witness :
    (VError.gapTooLarge "f.csv" "g.csv" 6 = .gapTooLarge "f.csv" "g.csv" 6) ∧
    (VError.overlapLengthMismatch 0 1 = .overlapLengthMismatch 0 (0 + 1) ∨
      VError.overlapLengthMismatch 0 1 = .overlapIdentityMismatch 0 (0 + 1)) := by
  constructor
  · exact (validation_error_payloads 0 [Row.mk 0 1] [Row.mk 1000 2] "f.csv" "g.csv" 6
      (.gapTooLarge "f.csv" "g.csv" 6)).1 rfl
  · exact (validation_error_payloads 0 dfLong dfShort "f.csv" "g.csv" 6
      (.overlapLengthMismatch 0 1)).2 rfl

/-- Claim C2: on a non-empty list the merge is the indexed loop folding
`mergeStep` over the tail starting from the first set, each step keeping
exactly the rows strictly newer than the running maximum of the result so
far; at a shared boundary instant (`last == first`, which makes the
boundary overlapping) every row at or before that instant occurs in the
merged output exactly as often as in the earlier set, so the shared
boundary record is kept once, from the earlier file. -/
theorem merger_loop_behaviour (d : DF) (rest : List DF) (a b : DF) (l : Int)
    (hl : maxAnfang a = some l) (hf : minAnfang b = some l) :
    merge_nonoverlapping_list (d :: rest) = .ok (rest.foldl mergeStep d) ∧
    (∀ m s : DF, mergeStep m s = m ++ s.filter fun r => gtScalar r.anfang (maxAnfang m)) ∧
    optGe (maxAnfang a) (minAnfang b) = true ∧
    merge_nonoverlapping_list [a, b] =
      .ok (a ++ b.filter fun r => gtScalar r.anfang (maxAnfang a)) ∧
    (∀ r : Row, r.anfang ≤ l →
      (a ++ b.filter fun r => gtScalar r.anfang (maxAnfang a)).count r = a.count r) := by
  refine ⟨merge_list_cons d rest, fun m s => rfl, ?_, ?_, ?_⟩
  · rw [hl, hf]
    exact decide_eq_true (le_refl l)
  · rw [merge_list_cons, List.foldl_cons, List.foldl_nil]
    rfl
  · intro r hr
    rw [List.count_append]
    have hzero : (b.filter fun rr => gtScalar rr.anfang (maxAnfang a)).count r = 0 := by
      rw [List.count_eq_zero]
      intro hmem
      have hp := List.of_mem_filter hmem
      rw [hl] at hp
      have : l < r.anfang := of_decide_eq_true hp
      omega
    rw [hzero, Nat.add_zero]

/-- Witness for C2: the two frames share the boundary record
`⟨600, 2⟩`; the merged output keeps it once, from the earlier frame. -/
theorem merger_loop_behaviour_witness :
    merge_nonoverlapping_list [dfA, dfB] =
      .ok (dfA ++ dfB.filter fun r => gtScalar r.anfang (maxAnfang dfA)) ∧
    (dfA ++ dfB.filter fun r => gtScalar r.anfang (maxAnfang dfA)).count (Row.mk 600 2) =
      dfA.count (Row.mk 600 2) := by
  have h := merger_loop_behaviour dfA [dfB] dfA dfB 600 rfl rfl
  exact ⟨h.2.2.2.1, h.2.2.2.2 (Row.mk 600 2) (by decide)⟩

/-- Relabel every booking identifier, leaving the timestamps alone. -/
def mapIds (g : Int → Int) (df : DF) : DF :=
  df.map fun r => ⟨r.anfang, g r.fahrtneu_id⟩

theorem maxAnfang_mapIds (g : Int → Int) (df : DF) :
    maxAnfang (mapIds g df) = maxAnfang df := by
  cases df with
  | nil => rfl
  | cons r rs =>
      simp only [mapIds, maxAnfang, List.map_cons, List.map_map]
      rfl

theorem mergeStep_mapIds (g : Int → Int) (m s : DF) :
    mergeStep (mapIds g m) (mapIds g s) = mapIds g (mergeStep m s) := by
  simp only [mergeStep, maxAnfang_mapIds]
  simp only [mapIds, List.map_append, List.filter_map]
  rfl

theorem foldl_mergeStep_mapIds (g : Int → Int) (ds : List DF) :
    ∀ d : DF, (ds.map (mapIds g)).foldl mergeStep (mapIds g d) =
      mapIds g (ds.foldl mergeStep d) := by
  induction ds with
  | nil => intro d; rfl
  | cons s rest ih =>
      intro d
      rw [List.map_cons, List.foldl_cons, List.foldl_cons, mergeStep_mapIds, ih]

theorem foldl_mergeStep_prefix (ds : List DF) :
    ∀ d : DF, ∃ t, ds.foldl mergeStep d = d ++ t := by
  induction ds with
  | nil => intro d; exact ⟨[], (List.append_nil d).symm⟩
  | cons s rest ih =>
      intro d
      obtain ⟨t, ht⟩ := ih (mergeStep d s)
      refine ⟨(s.filter fun r => gtScalar r.anfang (maxAnfang d)) ++ t, ?_⟩
      rw [List.foldl_cons, ht, mergeStep, List.append_assoc]

/-- Claim C10: the merger selects rows by timestamp only.  The first set is
a prefix of the output, each step's filter is literally the predicate
`anfang > running max` (which never reads `fahrtneu_id`), and relabelling
every booking identifier commutes with the whole merge, so no selection
decision can depend on the identifiers. -/
theorem merger_timestamp_only (d : DF) (ds : List DF) (g : Int → Int) :
    (∃ t, merge_nonoverlapping_list (d :: ds) = .ok (d ++ t)) ∧
    (∀ m s : DF, mergeStep m s = m ++ s.filter fun r => gtScalar r.anfang (maxAnfang m)) ∧
    merge_nonoverlapping_list ((d :: ds).map (mapIds g)) =
      Except.map (mapIds g) (merge_nonoverlapping_list (d :: ds)) := by
  refine ⟨?_, fun m s => rfl, ?_⟩
  · obtain ⟨t, ht⟩ := foldl_mergeStep_prefix ds d
    exact ⟨t, by rw [merge_list_cons, ht]⟩
  · rw [List.map_cons, merge_list_cons, merge_list_cons, foldl_mergeStep_mapIds]
    rfl

/-- Claim C6: the pipeline runs overlap verification, then the gap check,
then the merge, all over the loaded record sets, which no stage modifies:
a verification error is returned as is with no merge output; a gap-check
error likewise; and a successful merge output implies both validations
passed and the merge consumed exactly the loaded record sets. -/
theorem pipeline_validate_before_merge (read_csv : String → DF) (csv_files : List String) :
    (∀ e, verify_overlapping_bookings (load_and_sort_fahrten_data read_csv csv_files).1 =
        .error e →
      combine_and_verify_booking_data read_csv csv_files = .error e) ∧
    (∀ e, verify_overlapping_bookings (load_and_sort_fahrten_data read_csv csv_files).1 =
        .ok () →
      assert_time_difference_in_bookings (load_and_sort_fahrten_data read_csv csv_files).1
        (load_and_sort_fahrten_data read_csv csv_files).2 default_threshold_hours = .error e →
      combine_and_verify_booking_data read_csv csv_files = .error e) ∧
    (∀ m, combine_and_verify_booking_data read_csv csv_files = .ok m →
      verify_overlapping_bookings (load_and_sort_fahrten_data read_csv csv_files).1 = .ok () ∧
      (∃ ws, assert_time_difference_in_bookings
        (load_and_sort_fahrten_data read_csv csv_files).1
        (load_and_sort_fahrten_data read_csv csv_files).2 default_threshold_hours = .ok ws) ∧
      merge_nonoverlapping_dfs
        (.vlist ((load_and_sort_fahrten_data read_csv csv_files).1.map .vdf)) = .ok m) := by
  refine ⟨?_, ?_, ?_⟩
  · intro e hv
    rw [combine_and_verify_booking_data]
    simp only [hv]
  · intro e hv ha
    rw [combine_and_verify_booking_data]
    simp only [hv, ha]
  · intro m hm
    rw [combine_and_verify_booking_data] at hm
    cases hv : verify_overlapping_bookings (load_and_sort_fahrten_data read_csv csv_files).1 with
    | error e =>
        simp only [hv] at hm
        exact Except.noConfusion hm
    | ok u =>
        cases u
        simp only [hv] at hm
        cases ha : assert_time_difference_in_bookings
            (load_and_sort_fahrten_data read_csv csv_files).1
            (load_and_sort_fahrten_data read_csv csv_files).2 default_threshold_hours with
        | error e =>
            simp only [ha] at hm
            exact Except.noConfusion hm
        | ok ws =>
            simp only [ha] at hm
            exact ⟨rfl, ⟨ws, rfl⟩, hm⟩

/-- Witness for C6: a failed overlap validation aborts the pipeline with
that very error and no merged output. -/
theorem pipeline_validate_before_merge_witness :
    combine_and_verify_booking_data readPairNamed1 ["a.csv", "b.csv"] =
      .error (.overlapLengthMismatch 0 1) :=
  (pipeline_validate_before_merge readPairNamed1 ["a.csv", "b.csv"]).1
    (.overlapLengthMismatch 0 1) rfl

end Halkit
